import Mathlib

/-!
# Verification of the travel-planner orchestration core (`app.py`)

Shallow embedding of the orchestration state machine of the repository's
`app.py`: the per-turn decision function `chatbot`, the extraction stage
`update_state`, the budget stage `calculate_budget_status`, the router
`tools_condition`, and the tool-call truncation in `debug_tool_node`.

Modelling conventions:
* Python floats are modelled as exact rationals (`ℚ`); the arithmetic the
  claims mention (`* 1.07`, `- budget`, `>= 300.0`) is exact at the
  magnitudes involved.
* Python strings are Lean `String`s; the regular-expression character
  classes `\d`, `\s`, `[A-Z]` are modelled over their ASCII meaning
  (the texts the program parses are ASCII tool output).
* A LangChain message is modelled by the three attributes the code reads:
  `name` (present on tool-result messages), `content`, and `tool_calls`
  (present only on assistant messages, modelled with `Option`; `none`
  plays the role of a failing `hasattr` check).
* LangGraph merges a node's returned dict into the state by replacing
  exactly the returned keys (no reducer is declared for the trip-record
  fields); `applyUpdate` below models that merge.
-/

namespace TravelPlanner

/-! ## Character classes (ASCII fragment of Python `re` classes) -/

/-- `\d` : ASCII decimal digit. -/
def isDigitA (c : Char) : Bool := '0' ≤ c && c ≤ '9'

/-- `[A-Z]` : ASCII uppercase letter. -/
def isUpperA (c : Char) : Bool := 'A' ≤ c && c ≤ 'Z'

/-- `\s` : ASCII whitespace (space, tab, newline, carriage return,
vertical tab, form feed). -/
def isSpaceA (c : Char) : Bool :=
  c = ' ' || c = '\t' || c = '\n' || c = '\r' || c = '\x0b' || c = '\x0c'

/-! ## Substring test (Python's `in` operator on strings) -/

/-- Does `pre` occur as a prefix of `l`? -/
def prefixOf : List Char → List Char → Bool
  | [], _ => true
  | _ :: _, [] => false
  | p :: ps, c :: cs => p = c && prefixOf ps cs

/-- Does `nd` occur as a contiguous substring of `hay`? -/
def substrAux (nd : List Char) : List Char → Bool
  | [] => prefixOf nd []
  | c :: cs => prefixOf nd (c :: cs) || substrAux nd cs

/-- Python `needle in hay` for strings. -/
def substrB (needle hay : String) : Bool := substrAux needle.toList hay.toList

/-! ## The price regex `(\d+\.?\d*)\s*([A-Z]{3})`

`re.search` finds the leftmost match.  At a fixed start position the
pattern is effectively deterministic: shrinking a greedy `\d+`/`\d*`/`\s*`
run always leaves a digit or whitespace character in front of `[A-Z]{3}`,
which cannot match, and when the optional dot is present but the dotted
branch fails, the dotless branch places `[A-Z]{3}` on the dot and fails
too.  `matchPriceAt` implements that deterministic residue. -/

/-- Try to match `(\d+\.?\d*)\s*([A-Z]{3})` at the head of `cs`, returning
(group 1, group 2). -/
def matchPriceAt (cs : List Char) : Option (String × String) :=
  let d1 := cs.takeWhile isDigitA
  if d1.isEmpty then none else
  let rest1 := cs.dropWhile isDigitA
  let frac : List Char × List Char :=
    match rest1 with
    | '.' :: r => ('.' :: r.takeWhile isDigitA, r.dropWhile isDigitA)
    | _ => ([], rest1)
  let rest3 := frac.2.dropWhile isSpaceA
  match rest3 with
  | a :: b :: c :: _ =>
      if isUpperA a && isUpperA b && isUpperA c then
        some (String.mk (d1 ++ frac.1), String.mk [a, b, c])
      else none
  | _ => none

/-- Leftmost match of the price pattern over all start positions. -/
def firstPriceAux : List Char → Option (String × String)
  | [] => none
  | c :: cs =>
      match matchPriceAt (c :: cs) with
      | some r => some r
      | none => firstPriceAux cs

/-- `re.search(r'(\d+\.?\d*)\s*([A-Z]{3})', s)`, as the pair of groups. -/
def firstPriceMatch (s : String) : Option (String × String) :=
  firstPriceAux s.toList

/-! ## Number parsing -/

/-- Value of a list of ASCII digits. -/
def natOfDigits (cs : List Char) : Nat :=
  cs.foldl (fun a c => a * 10 + (c.toNat - '0'.toNat)) 0

/-- Integer part, fractional digits value, and fractional digit count of
a decimal literal (digits, optionally a dot and more digits). -/
def parseFloatParts (s : String) : Nat × Nat × Nat :=
  let cs := s.toList
  let ip := cs.takeWhile isDigitA
  let rest := cs.dropWhile isDigitA
  let fp := match rest with
    | '.' :: r => r.takeWhile isDigitA
    | _ => []
  (natOfDigits ip, natOfDigits fp, fp.length)

/-- Python `float(...)` on strings of the shape produced by group 1 of the
price regex (digits, optionally a dot and more digits), as an exact
rational. -/
def parseFloatQ (s : String) : ℚ :=
  ((parseFloatParts s).1 : ℚ) +
    ((parseFloatParts s).2.1 : ℚ) / (10 : ℚ) ^ (parseFloatParts s).2.2

/-- `re.search(r'(\d+)', s)` followed by `float(...)`: the leftmost maximal
digit run, as a number. -/
def firstIntAux : List Char → Option Nat
  | [] => none
  | c :: cs =>
      if isDigitA c then some (natOfDigits (c :: cs.takeWhile isDigitA))
      else firstIntAux cs

/-- First integer substring of `s`, if any. -/
def firstIntMatch (s : String) : Option Nat := firstIntAux s.toList

/-! ## The carrier regex `(?:Operating Airline\(s\)|Validating Airline):\s*([^(\n|]+)` -/

/-- Character admitted by the class `[^(\n|]`. -/
def isCarrierGroupChar (c : Char) : Bool :=
  !(c = '(' || c = '\n' || c = '|')

/-- Backtracking over the greedy `\s*`: try letting `\s*` consume `k`
characters, for `k` descending, and take the first position at which
`[^(\n|]+` matches a non-empty run. -/
def tryWsGroup (rest : List Char) : Nat → Option String
  | 0 =>
      let g := rest.takeWhile isCarrierGroupChar
      if g.isEmpty then none else some (String.mk g)
  | k + 1 =>
      let g := (rest.drop (k + 1)).takeWhile isCarrierGroupChar
      if g.isEmpty then tryWsGroup rest k else some (String.mk g)

/-- Try to match the carrier pattern at the head of `cs`, returning
group 1.  The two alternatives start with distinct letters, so the
alternation needs no inter-branch backtracking. -/
def matchCarrierAt (cs : List Char) : Option String :=
  let lit1 := "Operating Airline(s)".toList
  let lit2 := "Validating Airline".toList
  let after : Option (List Char) :=
    if prefixOf lit1 cs then some (cs.drop lit1.length)
    else if prefixOf lit2 cs then some (cs.drop lit2.length)
    else none
  match after with
  | none => none
  | some rest =>
      match rest with
      | ':' :: rest2 => tryWsGroup rest2 (rest2.takeWhile isSpaceA).length
      | _ => none

/-- Leftmost match of the carrier pattern. -/
def firstCarrierAux : List Char → Option String
  | [] => none
  | c :: cs =>
      match matchCarrierAt (c :: cs) with
      | some r => some r
      | none => firstCarrierAux cs

/-- `re.search` for the carrier pattern, as group 1. -/
def firstCarrierMatch (s : String) : Option String := firstCarrierAux s.toList

/-- Python `str.strip()` (ASCII whitespace fragment). -/
def pyStrip (s : String) : String :=
  String.mk (((s.toList.dropWhile isSpaceA).reverse.dropWhile isSpaceA).reverse)

/-! ## Messages -/

/-- A tool-call request carried by an assistant message; the routing and
truncation logic only inspects the list structure, so only the tool name
is modelled. -/
structure ToolCall where
  name : String
deriving DecidableEq

/-- The attributes of a LangChain message that `app.py` reads.
`tool_calls = none` models a message without the attribute (a failing
`hasattr(m, 'tool_calls')`); `name = none` models a message whose `name`
attribute is unset. -/
structure Msg where
  name : Option String := none
  content : String := ""
  tool_calls : Option (List ToolCall) := none
deriving DecidableEq

/-! ## Budget stage: `calculate_budget_status` (`app.py` lines 289-319) -/

/-- The dict returned by `calculate_budget_status`. -/
structure BudgetResult where
  feasibility_status : String
  flight_cost_eur : ℚ
  flight_carrier : String
  remaining_budget_usd : ℚ
  flight_searched : Bool
deriving DecidableEq

/-- The zeroed `ERROR` dict returned on every failure path. -/
def errorResult : BudgetResult :=
  { feasibility_status := "ERROR", flight_cost_eur := 0,
    flight_carrier := "Unknown", remaining_budget_usd := 0,
    flight_searched := true }

/-- `[m for m in messages if hasattr(m, 'name') and m.name == 'amadeus_flight_search']`. -/
def flightMsgs (msgs : List Msg) : List Msg :=
  msgs.filter (fun m => m.name == some "amadeus_flight_search")

/-- `"not configured" in content or "API Error" in content`. -/
def hasErrorSentinel (content : String) : Bool :=
  substrB "not configured" content || substrB "API Error" content

/-- `flight_price_eur`: group 1 of the first price match, else `0.0`. -/
def flightPriceEur (content : String) : ℚ :=
  match firstPriceMatch content with
  | some pc => parseFloatQ pc.1
  | none => 0

/-- `currency`: group 2 of the first price match, else the initial `"EUR"`. -/
def flightCurrency (content : String) : String :=
  match firstPriceMatch content with
  | some pc => pc.2
  | none => "EUR"

/-- `flight_carrier`: stripped group 1 of the carrier match, else `"Unknown"`. -/
def flightCarrierOf (content : String) : String :=
  match firstCarrierMatch content with
  | some g => pyStrip g
  | none => "Unknown"

/-- `flight_price_usd = flight_price_eur * 1.07 if currency == "EUR" else flight_price_eur`. -/
def flightPriceUsd (content : String) : ℚ :=
  if flightCurrency content = "EUR" then flightPriceEur content * (107 / 100)
  else flightPriceEur content

/-- `user_budget_usd`: first integer substring of `state.get('budget', '0 USD')`,
`0.0` when there is none.  The `try` around this block cannot fail: the
matched text is always a valid integer literal. -/
def userBudgetQ (budget : Option String) : ℚ :=
  match firstIntMatch (budget.getD "0 USD") with
  | some n => (n : ℚ)
  | none => 0

/-- The success path of `calculate_budget_status` (lines 295-319).  The
`try` block around the parsing cannot raise in this total model: the
regexes are total and `float` is only applied to text the price regex
matched. -/
def parseFlightStage (content : String) (budget : Option String) : BudgetResult :=
  let remaining := userBudgetQ budget - flightPriceUsd content
  { feasibility_status := if remaining ≥ 300 then "FEASIBLE" else "OVER_BUDGET",
    flight_cost_eur := flightPriceEur content,
    flight_carrier := flightCarrierOf content,
    remaining_budget_usd := remaining,
    flight_searched := true }

/-- `calculate_budget_status(state)` as a function of the message log and
the `budget` field (`none` models an absent key, so `state.get('budget',
'0 USD')` falls back to the default). -/
def calculate_budget_status (msgs : List Msg) (budget : Option String) : BudgetResult :=
  match (flightMsgs msgs).getLast? with
  | none => errorResult
  | some last =>
      if hasErrorSentinel last.content then errorResult
      else parseFlightStage last.content budget

/-! ## Dates: `datetime.strptime(s, '%Y-%m-%d')` and timedelta days

`strptime` requires the whole string to match `%Y-%m-%d` (four-digit year,
one-or-two-digit month in 1..12, one-or-two-digit day in 1..31) and the
`datetime` constructor additionally requires `year ≥ 1` and the day to
exist in the month (proleptic Gregorian calendar). -/

/-- Split a character list at every `'-'`. -/
def splitDash : List Char → List (List Char)
  | [] => [[]]
  | '-' :: r => [] :: splitDash r
  | c :: r =>
      match splitDash r with
      | p :: ps => (c :: p) :: ps
      | [] => [[c]]

/-- Gregorian leap year. -/
def isLeap (y : Nat) : Bool := y % 4 = 0 && (y % 100 ≠ 0 || y % 400 = 0)

/-- Length of a month. -/
def daysInMonth (y m : Nat) : Nat :=
  if m = 2 then (if isLeap y then 29 else 28)
  else if m = 4 || m = 6 || m = 9 || m = 11 then 30
  else 31

/-- All characters are ASCII digits. -/
def allDigits (cs : List Char) : Bool := cs.all isDigitA

/-- `datetime.strptime(s, '%Y-%m-%d')`, as the `(year, month, day)`
triple; `none` models the `ValueError` the `except` clause catches. -/
def parseDate (s : String) : Option (Nat × Nat × Nat) :=
  match splitDash s.toList with
  | [ys, ms, ds] =>
      if allDigits ys && allDigits ms && allDigits ds &&
         ys.length = 4 && decide (1 ≤ ms.length) && decide (ms.length ≤ 2) &&
         decide (1 ≤ ds.length) && decide (ds.length ≤ 2) then
        let y := natOfDigits ys
        let m := natOfDigits ms
        let d := natOfDigits ds
        if 1 ≤ y && 1 ≤ m && m ≤ 12 && 1 ≤ d && d ≤ daysInMonth y m then
          some (y, m, d)
        else none
      else none
  | _ => none

/-- Serial day number of a Gregorian date (days since 0000-03-01, shifted
year starting in March); only differences of these numbers are used, as
`timedelta.days` only depends on the difference. -/
def rataDie (y m d : Nat) : Nat :=
  let y2 := if m ≤ 2 then y - 1 else y
  let era := y2 / 400
  let yoe := y2 % 400
  let mp := if 2 < m then m - 3 else m + 9
  let doy := (153 * mp + 2) / 5 + d - 1
  era * 146097 + yoe * 365 + yoe / 4 - yoe / 100 + doy

/-- `(datetime.strptime(ret) - datetime.strptime(dep)).days`; `none` when
either parse raises. -/
def dateDiffDays (dep ret : String) : Option Int :=
  match parseDate dep, parseDate ret with
  | some d1, some d2 =>
      some ((rataDie d2.1 d2.2.1 d2.2.2 : Int) - (rataDie d1.1 d1.2.1 d1.2.2 : Int))
  | _, _ => none

/-! ## Extraction stage: `update_state` (`app.py` lines 229-287)

The function scans for the most recent `Travel` tool call and processes
its argument dict.  The model below embeds the processing of that dict
(lines 237-281).  A value under a key can be absent, `None`, or a typed
value; the schema types are string for most fields, int for `adults`, and
bool for `needs_directions` (with the code's defensive handling of a
string there). -/

/-- A string-typed entry of the extracted dict: key absent, value `None`,
or a string (possibly empty). -/
inductive ExtractedStr where
  | missing
  | null
  | str (s : String)
deriving DecidableEq

/-- The `adults` entry: key absent, `None`, or an int. -/
inductive ExtractedInt where
  | missing
  | null
  | int (n : Int)
deriving DecidableEq

/-- The `needs_directions` entry: key absent, `None`, a bool, or
(defensively) a string. -/
inductive ExtractedBoolStr where
  | missing
  | null
  | bool (b : Bool)
  | str (s : String)
deriving DecidableEq

/-- The argument dict of a `Travel` tool call. -/
structure TravelArgs where
  depart : ExtractedStr := .missing
  destination : ExtractedStr := .missing
  duration : ExtractedStr := .missing
  adults : ExtractedInt := .missing
  budget : ExtractedStr := .missing
  departureDate : ExtractedStr := .missing
  returnDate : ExtractedStr := .missing
  interests : ExtractedStr := .missing
  needs_directions : ExtractedBoolStr := .missing
deriving DecidableEq

/-- Contribution of a string field to `new_state`: present iff the key is
in the dict with a value that is neither `None` nor `''`
(`if value is not None and value != '': new_state[k] = str(value)`). -/
def extStr : ExtractedStr → Option String
  | .str s => if s = "" then none else some s
  | _ => none

/-- Contribution of `adults`: `int(value) if value else 1` (so an explicit
`0` becomes `1`; `0 != ''` holds in Python, hence `0` passes the filter). -/
def extAdults : ExtractedInt → Option Int
  | .int n => some (if n = 0 then 1 else n)
  | _ => none

/-- Contribution of `needs_directions`: a string is compared
case-insensitively against `'true'`; any other non-`None` value is
coerced with `bool(...)` (note `False != ''` holds in Python, so an
explicit `False` is stored). -/
def extNd : ExtractedBoolStr → Option Bool
  | .bool b => some b
  | .str s => if s = "" then none else some (s.toLower = "true")
  | _ => none

/-- The dict `new_state` returned by `update_state`; `none` = key absent
from the returned dict. -/
structure StateUpdate where
  depart : Option String
  destination : Option String
  duration : Option String
  adults : Option Int
  budget : Option String
  departureDate : Option String
  returnDate : Option String
  interests : Option String
  needs_directions : Option Bool
deriving DecidableEq

/-- `update_state` lines 237-281: merge non-empty extracted values, apply
the defaults to keys absent from `new_state`, derive `duration`. -/
def update_state_from_args (a : TravelArgs) : StateUpdate :=
  let depart := extStr a.depart
  let destination := extStr a.destination
  let duration0 := extStr a.duration
  let adults0 := extAdults a.adults
  let budget := extStr a.budget
  let departureDate := extStr a.departureDate
  let returnDate := extStr a.returnDate
  let interests0 := extStr a.interests
  let nd0 := extNd a.needs_directions
  let adults := some (adults0.getD 1)
  let interests := some (interests0.getD "general sightseeing")
  let needs_directions := some (nd0.getD false)
  let duration : Option String :=
    match duration0 with
    | some d => some d
    | none =>
        match departureDate, returnDate with
        | some ds, some rs =>
            match dateDiffDays ds rs with
            | some days =>
                if 0 < days then some (toString days ++ " days")
                else some "Invalid dates"
            | none => some "Date parse error"
        | some _, none => some "Flexible / One-way"
        | none, _ => some "Not specified"
  { depart := depart, destination := destination, duration := duration,
    adults := adults, budget := budget, departureDate := departureDate,
    returnDate := returnDate, interests := interests,
    needs_directions := needs_directions }

/-- The trip-record slice of the graph `State`; `none` models a key not
yet present in the thread's state. -/
structure TripState where
  depart : Option String
  destination : Option String
  duration : Option String
  adults : Option Int
  budget : Option String
  departureDate : Option String
  returnDate : Option String
  interests : Option String
  needs_directions : Option Bool
deriving DecidableEq

/-- LangGraph channel update for a key without a reducer: a key present
in the returned dict replaces the stored value, an absent key leaves it. -/
def mergeF {α : Type} (upd old : Option α) : Option α :=
  match upd with
  | some v => some v
  | none => old

/-- Merging the dict returned by `update_state` into the thread state. -/
def applyUpdate (s : TripState) (u : StateUpdate) : TripState :=
  { depart := mergeF u.depart s.depart,
    destination := mergeF u.destination s.destination,
    duration := mergeF u.duration s.duration,
    adults := mergeF u.adults s.adults,
    budget := mergeF u.budget s.budget,
    departureDate := mergeF u.departureDate s.departureDate,
    returnDate := mergeF u.returnDate s.returnDate,
    interests := mergeF u.interests s.interests,
    needs_directions := mergeF u.needs_directions s.needs_directions }

/-! ## Decision function: `chatbot` (`app.py` lines 89-227)

The LLM itself is the external collaborator; the modelled content of the
node is which branch it takes, i.e. whether the LLM is invoked with the
tool set bound (`llm_with_tools.invoke`) or bare (`llm.invoke`), and the
single tool the built prompt instructs the LLM to call. -/

/-- The workflow slice of the graph `State` read by `chatbot` and
`tools_condition`.  Flags are read with `state.get(k, False)`, so an
absent key and `False` coincide and are modelled by `false`;
`destination` is read with `state.get('destination')`, so `none` models
an absent key. -/
structure ChatState where
  destination : Option String := none
  needs_directions : Bool := false
  flight_searched : Bool := false
  hotel_searched : Bool := false
  activities_searched : Bool := false
  directions_searched : Bool := false
  messages : List Msg := []
deriving DecidableEq

/-- `any(hasattr(m, 'name') and m.name == toolName for m in messages)`. -/
def msgDone (msgs : List Msg) (toolName : String) : Bool :=
  msgs.any (fun m => m.name == some toolName)

/-- `flight_searched` as computed at the top of `chatbot` (flag OR a
matching tool-result message in the log). -/
def flightDone (s : ChatState) : Bool :=
  s.flight_searched || msgDone s.messages "amadeus_flight_search"

/-- `hotel_searched` as computed at the top of `chatbot`. -/
def hotelDone (s : ChatState) : Bool :=
  s.hotel_searched || msgDone s.messages "quick_hotel_search"

/-- `activities_searched` as computed at the top of `chatbot`. -/
def activitiesDone (s : ChatState) : Bool :=
  s.activities_searched || msgDone s.messages "google_search_activities"

/-- `directions_searched` as computed at the top of `chatbot`. -/
def directionsDone (s : ChatState) : Bool :=
  s.directions_searched || msgDone s.messages "get_openrouteservice_directions"

/-- `not state.get('destination')`: key absent, `None`, or `''`. -/
def destinationEmpty (s : ChatState) : Bool :=
  match s.destination with
  | none => true
  | some d => d == ""

/-- The observable shape of one `chatbot` LLM invocation: whether the
tool set was bound (`llm_with_tools` vs plain `llm`) and the single tool
the system prompt instructs the LLM to call (`tool_to_call`; `none` for
the final-summary and all-searches-complete prompts, which forbid tool
calls). -/
structure ChatbotCall where
  toolsBound : Bool
  instructedTool : Option String
deriving DecidableEq

/-- The branch structure of `chatbot` (lines 122-221): directions prompt,
final-summary prompt (bare `llm.invoke`, no tools bound), or the
strict-priority workflow prompt `destination missing → flight → hotel →
activities → none`. -/
def chatbot_call (s : ChatState) : ChatbotCall :=
  if flightDone s && hotelDone s && activitiesDone s then
    if s.needs_directions && !directionsDone s then
      { toolsBound := true, instructedTool := some "get_openrouteservice_directions" }
    else
      { toolsBound := false, instructedTool := none }
  else
    if destinationEmpty s then
      { toolsBound := true, instructedTool := some "Travel" }
    else if !flightDone s then
      { toolsBound := true, instructedTool := some "amadeus_flight_search" }
    else if !hotelDone s then
      { toolsBound := true, instructedTool := some "quick_hotel_search" }
    else if !activitiesDone s then
      { toolsBound := true, instructedTool := some "google_search_activities" }
    else
      { toolsBound := true, instructedTool := none }

/-! ## Router: `tools_condition` (`app.py` lines 355-388) and the tool
node truncation (`debug_tool_node`, lines 397-405) -/

/-- The three targets of the conditional edge out of `chatbot`:
the tool node, back to `chatbot`, or `END`. -/
inductive Route where
  | tools
  | chatbot
  | terminal
deriving DecidableEq

/-- `hasattr(m, 'tool_calls') and m.tool_calls` (a truthy, i.e. non-empty,
list under an existing attribute). -/
def hasToolCalls (m : Msg) : Bool :=
  match m.tool_calls with
  | some (_ :: _) => true
  | _ => false

/-- `if hasattr(last_message, 'tool_calls'): last_message.tool_calls = []`. -/
def clearToolCalls (m : Msg) : Msg :=
  match m.tool_calls with
  | some _ => { m with tool_calls := some [] }
  | none => m

/-- `last_message.tool_calls = [last_message.tool_calls[0]]`. -/
def truncToolCalls (m : Msg) : Msg :=
  { m with tool_calls := some ((m.tool_calls.getD []).take 1) }

/-- `tools_condition(state)`.  The code mutates `state['messages'][-1]`
in place (clearing or truncating its tool-call list) before returning the
route, so the model returns the route together with the message as left
in the state.  `last` is `state['messages'][-1]`; the flags are read from
the state only (no message scan here, unlike `chatbot`). -/
def tools_condition (s : ChatState) (last : Msg) : Route × Msg :=
  let all_standard_searches_done :=
    s.flight_searched && s.hotel_searched && s.activities_searched
  let directions_logic_complete :=
    !s.needs_directions || (s.needs_directions && s.directions_searched)
  if all_standard_searches_done && directions_logic_complete then
    if last.content ≠ "" && !hasToolCalls last then
      (.terminal, last)
    else
      (.chatbot, clearToolCalls last)
  else
    if hasToolCalls last then
      if 1 < (last.tool_calls.getD []).length then
        (.tools, truncToolCalls last)
      else (.tools, last)
    else (.chatbot, last)

/-- The tool-call list `debug_tool_node` actually hands to the tool node:
`tool_calls = getattr(last_msg, 'tool_calls', [])`, truncated to its
first element when it holds more than one; when it is empty, no tool is
invoked (a placeholder tool message is returned instead). -/
def debug_tool_calls (last : Msg) : List ToolCall :=
  let tcs := last.tool_calls.getD []
  if 1 < tcs.length then tcs.take 1 else tcs

/-! # Claims -/

/-- Two budget results agreeing on every field are equal. -/
theorem budgetResult_ext {x y : BudgetResult}
    (h1 : x.feasibility_status = y.feasibility_status)
    (h2 : x.flight_cost_eur = y.flight_cost_eur)
    (h3 : x.flight_carrier = y.flight_carrier)
    (h4 : x.remaining_budget_usd = y.remaining_budget_usd)
    (h5 : x.flight_searched = y.flight_searched) : x = y := by
  cases x; cases y; simp_all

/-! ## C1 : merge semantics of the extraction stage -/

/-- A thread state in which several trip-record fields already hold
non-empty values. -/
def c1_state : TripState :=
  { depart := none, destination := some "Paris", duration := some "5 days",
    adults := some 3, budget := none, departureDate := none,
    returnDate := none, interests := some "history, food",
    needs_directions := some true }

/-- A later `Travel` extraction that supplies only a budget and omits
`interests`, `adults`, `needs_directions` and `duration`. -/
def c1_args : TravelArgs := { budget := .str "2000 USD" }

/-- Claim C1, counterexample: the state holds the non-empty `interests`
value `"history, food"`, the extraction omits `interests` (and `adults`,
`needs_directions`, `duration`), yet after `update_state`'s dict is merged
the previously set fields are overwritten by the defaults
(`"general sightseeing"`, `1`, `false`) and the `"Not specified"`
sentinel: the defaults are keyed on absence from the extraction, not on
absence after the merge with the existing state. -/
theorem C1_counterexample :
    c1_state.interests = some "history, food" ∧
    c1_state.adults = some 3 ∧
    c1_state.needs_directions = some true ∧
    c1_state.duration = some "5 days" ∧
    c1_args.interests = ExtractedStr.missing ∧
    c1_args.adults = ExtractedInt.missing ∧
    c1_args.needs_directions = ExtractedBoolStr.missing ∧
    c1_args.duration = ExtractedStr.missing ∧
    (applyUpdate c1_state (update_state_from_args c1_args)).interests =
      some "general sightseeing" ∧
    (applyUpdate c1_state (update_state_from_args c1_args)).adults = some 1 ∧
    (applyUpdate c1_state (update_state_from_args c1_args)).needs_directions =
      some false ∧
    (applyUpdate c1_state (update_state_from_args c1_args)).duration =
      some "Not specified" := by
  decide

/-- Claim C1 (amended): an `update_state` merge never clears the
non-defaulted fields — `depart`, `destination`, `budget`,
`departureDate`, `returnDate` keep their existing value when the
extraction omits them or supplies an empty value, and take the extracted
value when a non-empty one is supplied — while the defaulted fields are
set by every extraction: `adults`, `interests` and `needs_directions`
always end up holding the extracted value when one is supplied and the
default (`1`, `"general sightseeing"`, `false`) otherwise, and `duration`
holds the supplied value when there is one, regardless of the previous
state. -/
theorem C1_merge_semantics (s : TripState) (a : TravelArgs) :
    (extStr a.depart = none →
      (applyUpdate s (update_state_from_args a)).depart = s.depart) ∧
    (extStr a.destination = none →
      (applyUpdate s (update_state_from_args a)).destination = s.destination) ∧
    (extStr a.budget = none →
      (applyUpdate s (update_state_from_args a)).budget = s.budget) ∧
    (extStr a.departureDate = none →
      (applyUpdate s (update_state_from_args a)).departureDate = s.departureDate) ∧
    (extStr a.returnDate = none →
      (applyUpdate s (update_state_from_args a)).returnDate = s.returnDate) ∧
    (∀ v, extStr a.destination = some v →
      (applyUpdate s (update_state_from_args a)).destination = some v) ∧
    (∀ v, extStr a.duration = some v →
      (applyUpdate s (update_state_from_args a)).duration = some v) ∧
    ((applyUpdate s (update_state_from_args a)).adults =
      some ((extAdults a.adults).getD 1)) ∧
    ((applyUpdate s (update_state_from_args a)).interests =
      some ((extStr a.interests).getD "general sightseeing")) ∧
    ((applyUpdate s (update_state_from_args a)).needs_directions =
      some ((extNd a.needs_directions).getD false)) := by
  refine ⟨?_, ?_, ?_, ?_, ?_, ?_, ?_, ?_, ?_, ?_⟩
  · intro h; simp [update_state_from_args, applyUpdate, mergeF, h]
  · intro h; simp [update_state_from_args, applyUpdate, mergeF, h]
  · intro h; simp [update_state_from_args, applyUpdate, mergeF, h]
  · intro h; simp [update_state_from_args, applyUpdate, mergeF, h]
  · intro h; simp [update_state_from_args, applyUpdate, mergeF, h]
  · intro v h; simp [update_state_from_args, applyUpdate, mergeF, h]
  · intro v h; simp [update_state_from_args, applyUpdate, mergeF, h]
  · simp [update_state_from_args, applyUpdate, mergeF]
  · simp [update_state_from_args, applyUpdate, mergeF]
  · simp [update_state_from_args, applyUpdate, mergeF]

/-- A state and extraction exercising both sides of the amended claim. -/
def c1w_state : TripState :=
  { depart := none, destination := some "Rome", duration := none,
    adults := none, budget := none, departureDate := none,
    returnDate := none, interests := some "beaches",
    needs_directions := none }

/-- An extraction supplying only `adults`. -/
def c1w_args : TravelArgs := { adults := .int 2 }

/-- Claim C1, witness: at a concrete state and extraction, the existing
destination survives an extraction that omits it, while the omitted
`interests` field is reset to its default and the supplied `adults` value
is stored. -/
theorem C1_witness :
    (applyUpdate c1w_state (update_state_from_args c1w_args)).destination =
      some "Rome" ∧
    (applyUpdate c1w_state (update_state_from_args c1w_args)).interests =
      some "general sightseeing" ∧
    (applyUpdate c1w_state (update_state_from_args c1w_args)).adults = some 2 := by
  have h := C1_merge_semantics c1w_state c1w_args
  refine ⟨?_, ?_, ?_⟩
  · simpa using h.2.1 (by decide)
  · simpa using h.2.2.2.2.2.2.2.2.1
  · simpa using h.2.2.2.2.2.2.2.1

/-! ## C8 : derivation of the duration field -/

/-- Claim C8 (amended): when a `Travel` extraction supplies no duration,
`update_state` sets `duration` as follows: with both dates supplied and
parseable it is the positive day difference rendered as `"N days"`, but a
zero or negative difference yields the sentinel `"Invalid dates"` and an
unparseable date yields `"Date parse error"`; with only a departure date
it is `"Flexible / One-way"`, and with no departure date it is
`"Not specified"`. -/
theorem C8_duration_derivation (a : TravelArgs)
    (hdur : extStr a.duration = none) :
    (∀ ds rs n, extStr a.departureDate = some ds →
      extStr a.returnDate = some rs → dateDiffDays ds rs = some n →
      (update_state_from_args a).duration =
        some (if 0 < n then toString n ++ " days" else "Invalid dates")) ∧
    (∀ ds rs, extStr a.departureDate = some ds →
      extStr a.returnDate = some rs → dateDiffDays ds rs = none →
      (update_state_from_args a).duration = some "Date parse error") ∧
    (∀ ds, extStr a.departureDate = some ds → extStr a.returnDate = none →
      (update_state_from_args a).duration = some "Flexible / One-way") ∧
    (extStr a.departureDate = none →
      (update_state_from_args a).duration = some "Not specified") := by
  refine ⟨?_, ?_, ?_, ?_⟩
  · intro ds rs n h1 h2 h3
    simp only [update_state_from_args, hdur, h1, h2, h3]
    split <;> simp_all
  · intro ds rs h1 h2 h3
    simp only [update_state_from_args, hdur, h1, h2, h3]
  · intro ds h1 h2
    simp only [update_state_from_args, hdur, h1, h2]
  · intro h1
    simp only [update_state_from_args, hdur, h1]

/-- The extraction of claim C8's counterexample: both dates supplied, no
duration, with the return date five days before the departure date. -/
def c8_args : TravelArgs :=
  { departureDate := .str "2025-11-06", returnDate := .str "2025-11-01" }

/-- Claim C8, counterexample: with departure `2025-11-06` and return
`2025-11-01` both supplied, the whole-day difference is `-5`, but the
derived duration is the sentinel `"Invalid dates"`, not a day count. -/
theorem C8_counterexample :
    c8_args.duration = ExtractedStr.missing ∧
    dateDiffDays "2025-11-06" "2025-11-01" = some (-5) ∧
    (update_state_from_args c8_args).duration = some "Invalid dates" ∧
    ("Invalid dates" : String) ≠ toString (-5 : Int) ++ " days" := by
  decide

/-- The extraction of claim C8's witness: a five-day forward trip. -/
def c8w_args : TravelArgs :=
  { departureDate := .str "2025-11-01", returnDate := .str "2025-11-06" }

/-- An extraction with neither duration nor dates. -/
def c8_noDates_args : TravelArgs := { destination := .str "Lisbon" }

/-- Claim C8, witness: at concrete extractions, dates `2025-11-01` to
`2025-11-06` derive `"5 days"`, and a missing departure date derives
`"Not specified"`. -/
theorem C8_witness :
    (update_state_from_args c8w_args).duration = some "5 days" ∧
    (update_state_from_args c8_noDates_args).duration = some "Not specified" := by
  constructor
  · have h := (C8_duration_derivation c8w_args (by decide)).1
      "2025-11-01" "2025-11-06" 5 (by decide) (by decide) (by decide)
    have he : (if (0 : Int) < 5 then toString (5 : Int) ++ " days"
        else "Invalid dates") = "5 days" := by decide
    rw [he] at h
    exact h
  · exact (C8_duration_derivation c8_noDates_args (by decide)).2.2.2 (by decide)

/-! ## C2 : budget arithmetic of the budget stage -/

/-- The flight tool result of the spec's worked example. -/
def c2_msg : Msg :=
  { name := some "amadeus_flight_search",
    content := "1234.50 EUR\nOperating Airline(s): Emirates (EK)" }

/-- Claim C2 (amended): for a latest flight-result text free of the error
sentinels, the price is group 1 of the first `number + 3-letter-currency`
match, converted at `1.07` exactly when the currency is `"EUR"`; the
remaining budget is the first integer of the budget string minus that USD
price, and the status is `FEASIBLE` precisely when the remainder is at
least `300`; on the spec's worked example (`"1234.50 EUR"`, carrier line
`"Operating Airline(s): Emirates (EK)"`, budget `"2000 USD"`) this yields
cost `1234.50`, carrier `"Emirates"`, remaining `679.085` and status
`FEASIBLE`. -/
theorem C2_budget_arithmetic :
    (∀ (msgs : List Msg) (budget : Option String) (m : Msg) (p c : String),
      (flightMsgs msgs).getLast? = some m →
      hasErrorSentinel m.content = false →
      firstPriceMatch m.content = some (p, c) →
      (calculate_budget_status msgs budget).flight_cost_eur = parseFloatQ p ∧
      (calculate_budget_status msgs budget).remaining_budget_usd =
        userBudgetQ budget -
          (if c = "EUR" then parseFloatQ p * 1.07 else parseFloatQ p) ∧
      (calculate_budget_status msgs budget).feasibility_status =
        (if userBudgetQ budget -
            (if c = "EUR" then parseFloatQ p * 1.07 else parseFloatQ p) ≥ 300
         then "FEASIBLE" else "OVER_BUDGET")) ∧
    calculate_budget_status [c2_msg] (some "2000 USD") =
      { feasibility_status := "FEASIBLE", flight_cost_eur := 1234.5,
        flight_carrier := "Emirates", remaining_budget_usd := 679.085,
        flight_searched := true } := by
  have key : ∀ (msgs : List Msg) (budget : Option String) (m : Msg) (p c : String),
      (flightMsgs msgs).getLast? = some m →
      hasErrorSentinel m.content = false →
      firstPriceMatch m.content = some (p, c) →
      (calculate_budget_status msgs budget).flight_cost_eur = parseFloatQ p ∧
      (calculate_budget_status msgs budget).remaining_budget_usd =
        userBudgetQ budget -
          (if c = "EUR" then parseFloatQ p * 1.07 else parseFloatQ p) ∧
      (calculate_budget_status msgs budget).feasibility_status =
        (if userBudgetQ budget -
            (if c = "EUR" then parseFloatQ p * 1.07 else parseFloatQ p) ≥ 300
         then "FEASIBLE" else "OVER_BUDGET") := by
    intro msgs budget m p c hlast hsent hmatch
    have husd : flightPriceUsd m.content =
        (if c = "EUR" then parseFloatQ p * 1.07 else parseFloatQ p) := by
      have h7 : (1.07 : ℚ) = 107 / 100 := by norm_num
      simp only [flightPriceUsd, flightCurrency, flightPriceEur, hmatch, h7]
    refine ⟨?_, ?_, ?_⟩
    · simp only [calculate_budget_status, hlast, hsent, Bool.false_eq_true,
        if_false, parseFlightStage, flightPriceEur, hmatch]
    · simp only [calculate_budget_status, hlast, hsent, Bool.false_eq_true,
        if_false, parseFlightStage, husd]
    · simp only [calculate_budget_status, hlast, hsent, Bool.false_eq_true,
        if_false, parseFlightStage, husd]
  refine ⟨key, ?_⟩
  obtain ⟨h1, h2, h3⟩ := key [c2_msg] (some "2000 USD") c2_msg "1234.50" "EUR"
    (by decide) (by decide) (by decide)
  have hp : parseFloatQ "1234.50" = 1234.5 := by
    have hparts : parseFloatParts "1234.50" = (1234, 50, 2) := by decide
    rw [parseFloatQ, hparts]
    norm_num
  have hb : userBudgetQ (some "2000 USD") = 2000 := by
    have hint : firstIntMatch ((some "2000 USD").getD "0 USD") = some 2000 := by
      decide
    rw [userBudgetQ, hint]
    norm_num
  have hcar : (calculate_budget_status [c2_msg] (some "2000 USD")).flight_carrier =
      "Emirates" := by
    show flightCarrierOf c2_msg.content = "Emirates"
    decide
  have hfs : (calculate_budget_status [c2_msg] (some "2000 USD")).flight_searched =
      true := rfl
  rw [hp] at h1 h2 h3
  rw [hb] at h2 h3
  have hrem : (2000 : ℚ) - (if ("EUR" : String) = "EUR"
      then (1234.5 : ℚ) * 1.07 else 1234.5) = 679.085 := by
    norm_num
  rw [hrem] at h2 h3
  rw [if_pos (by norm_num : (679.085 : ℚ) ≥ 300)] at h3
  exact budgetResult_ext h3 h1 hcar h2 hfs

/-- The flight tool result of claim C2's counterexample: an adapter error
text that nevertheless contains a price-shaped substring. -/
def c2x_msg : Msg :=
  { name := some "amadeus_flight_search", content := "API Error: 100 EUR" }

/-- Claim C2, counterexample: the text `"API Error: 100 EUR"` has first
price match `100 EUR`, and the claimed formula would give remaining
`2000 - 100 * 1.07 = 1893 ≥ 300`, hence `FEASIBLE`; but
`calculate_budget_status` returns the zeroed `ERROR` result because the
text contains the `"API Error"` sentinel. -/
theorem C2_counterexample :
    firstPriceMatch c2x_msg.content = some ("100", "EUR") ∧
    calculate_budget_status [c2x_msg] (some "2000 USD") = errorResult ∧
    errorResult.feasibility_status = "ERROR" ∧
    errorResult.remaining_budget_usd = 0 ∧
    userBudgetQ (some "2000 USD") - parseFloatQ "100" * 1.07 ≥ 300 := by
  refine ⟨by decide, rfl, rfl, rfl, ?_⟩
  have hp : parseFloatQ "100" = 100 := by
    have : parseFloatParts "100" = (100, 0, 0) := by decide
    rw [parseFloatQ, this]
    norm_num
  have hb : userBudgetQ (some "2000 USD") = 2000 := by
    have : firstIntMatch ((some "2000 USD").getD "0 USD") = some 2000 := by decide
    rw [userBudgetQ, this]
    norm_num
  rw [hp, hb]
  norm_num

/-- Claim C2, witness: the general part of the amended claim applied to
the worked example's message, price `"1234.50"`, currency `"EUR"` and
budget `"2000 USD"`. -/
theorem C2_witness :
    (calculate_budget_status [c2_msg] (some "2000 USD")).flight_cost_eur =
      parseFloatQ "1234.50" ∧
    (calculate_budget_status [c2_msg] (some "2000 USD")).remaining_budget_usd =
      userBudgetQ (some "2000 USD") - parseFloatQ "1234.50" * 1.07 := by
  obtain ⟨h1, h2, h3⟩ := C2_budget_arithmetic.1 [c2_msg] (some "2000 USD") c2_msg
    "1234.50" "EUR" (by decide) (by decide) (by decide)
  refine ⟨h1, ?_⟩
  simpa using h2

/-! ## C5 : the ERROR cases of the budget stage -/

/-- Claim C5: `calculate_budget_status` is a total function (the model of
a function that never throws), and it returns the `ERROR` status exactly
when no flight-search tool result exists in the log or the latest one
contains `"not configured"` or `"API Error"`; in those cases every
numeric field is zero and the carrier is `"Unknown"`.  The third case the
claim lists — an exception while parsing — cannot occur: the parsing code
is total (`float` is only applied to regex-matched digit groups), so the
exception handler is dead code and adds no further `ERROR` outcome. -/
theorem C5_error_cases (msgs : List Msg) (budget : Option String) :
    ((calculate_budget_status msgs budget).feasibility_status = "ERROR" ↔
      (flightMsgs msgs).getLast? = none ∨
        (∃ m, (flightMsgs msgs).getLast? = some m ∧
          hasErrorSentinel m.content = true)) ∧
    ((calculate_budget_status msgs budget).feasibility_status = "ERROR" →
      calculate_budget_status msgs budget = errorResult) := by
  cases hlast : (flightMsgs msgs).getLast? with
  | none => simp [calculate_budget_status, hlast, errorResult]
  | some m =>
    by_cases hsent : hasErrorSentinel m.content = true
    · simp [calculate_budget_status, hlast, hsent, errorResult]
    · have hsent2 : hasErrorSentinel m.content = false := by
        simpa using hsent
      have hval : calculate_budget_status msgs budget =
          parseFlightStage m.content budget := by
        simp only [calculate_budget_status, hlast, hsent2, Bool.false_eq_true,
          if_false]
      have hstat : (calculate_budget_status msgs budget).feasibility_status ≠
          "ERROR" := by
        rw [hval]
        simp only [parseFlightStage]
        split <;> simp
      constructor
      · constructor
        · intro h
          exact absurd h hstat
        · rintro (h | ⟨m2, hm2, hs2⟩)
          · simp_all
          · cases hm2
            simp_all
      · intro h
        exact absurd h hstat

/-- Claim C5, witness: with an empty conversation log there is no
flight-search result, and the budget stage returns the zeroed `ERROR`
record. -/
theorem C5_witness : calculate_budget_status [] none = errorResult :=
  (C5_error_cases [] none).2 ((C5_error_cases [] none).1.mpr (Or.inl rfl))

/-! ## C10 : no price match is not an error -/

/-- Claim C10: a latest flight-result text without the error sentinels
and without any `number + 3-letter-currency` match does not produce
`ERROR`: the price defaults to `0` with the currency left at `"EUR"`, the
remaining budget is exactly the parsed user budget, and the status is
`FEASIBLE` precisely when that budget is at least `300`. -/
theorem C10_no_match_defaults (msgs : List Msg) (budget : Option String)
    (m : Msg) (hlast : (flightMsgs msgs).getLast? = some m)
    (hsent : hasErrorSentinel m.content = false)
    (hmatch : firstPriceMatch m.content = none) :
    (calculate_budget_status msgs budget).feasibility_status ≠ "ERROR" ∧
    flightCurrency m.content = "EUR" ∧
    (calculate_budget_status msgs budget).flight_cost_eur = 0 ∧
    (calculate_budget_status msgs budget).remaining_budget_usd =
      userBudgetQ budget ∧
    (calculate_budget_status msgs budget).feasibility_status =
      (if userBudgetQ budget ≥ 300 then "FEASIBLE" else "OVER_BUDGET") := by
  have hcur : flightCurrency m.content = "EUR" := by
    simp [flightCurrency, hmatch]
  have heur : flightPriceEur m.content = 0 := by
    simp [flightPriceEur, hmatch]
  have husd : flightPriceUsd m.content = 0 := by
    simp [flightPriceUsd, hcur, heur]
  have hval : calculate_budget_status msgs budget =
      parseFlightStage m.content budget := by
    simp only [calculate_budget_status, hlast, hsent, Bool.false_eq_true,
      if_false]
  have hstat : (calculate_budget_status msgs budget).feasibility_status =
      (if userBudgetQ budget ≥ 300 then "FEASIBLE" else "OVER_BUDGET") := by
    rw [hval]
    simp only [parseFlightStage, husd, sub_zero]
  refine ⟨?_, hcur, ?_, ?_, hstat⟩
  · rw [hstat]
    split <;> simp
  · rw [hval]
    simp only [parseFlightStage, heur]
  · rw [hval]
    simp only [parseFlightStage, husd, sub_zero]

/-- The flight tool result of claim C10's witness: prose with no
price-shaped substring. -/
def c10_msg : Msg :=
  { name := some "amadeus_flight_search",
    content := "No flight offers were found for this route." }

/-- Claim C10, witness: on a sentinel-free, match-free flight text with
budget `"500 USD"`, the budget stage returns `FEASIBLE` with the full
budget remaining. -/
theorem C10_witness :
    (calculate_budget_status [c10_msg] (some "500 USD")).feasibility_status =
      "FEASIBLE" ∧
    (calculate_budget_status [c10_msg] (some "500 USD")).remaining_budget_usd =
      500 := by
  obtain ⟨h1, h2, h3, h4, h5⟩ := C10_no_match_defaults [c10_msg]
    (some "500 USD") c10_msg (by decide) (by decide) (by decide)
  have hb : userBudgetQ (some "500 USD") = 500 := by
    have : firstIntMatch ((some "500 USD").getD "0 USD") = some 500 := by decide
    rw [userBudgetQ, this]
    norm_num
  rw [hb] at h4 h5
  rw [if_pos (by norm_num : (500 : ℚ) ≥ 300)] at h5
  exact ⟨h5, h4⟩

/-! ## Shared facts about the decision function -/

/-- When the three standard searches are recorded as done (flag or
message) and directions are not pending, `chatbot` takes the
final-summary branch: bare `llm.invoke`, no tool instructed. -/
theorem chatbot_final_of_done (s : ChatState)
    (h1 : flightDone s = true) (h2 : hotelDone s = true)
    (h3 : activitiesDone s = true)
    (h4 : s.needs_directions = false ∨ directionsDone s = true) :
    chatbot_call s = { toolsBound := false, instructedTool := none } := by
  have hdir : (s.needs_directions && !directionsDone s) = false := by
    rcases h4 with h | h <;> simp [h]
  simp [chatbot_call, h1, h2, h3, hdir]

/-- When `chatbot` invoked the LLM with tools bound, the flag-only
readiness test of `tools_condition` is false: either one of the three
standard flags is unset, or directions are required and the directions
flag is unset. -/
theorem toolsBound_not_ready (s : ChatState)
    (h : (chatbot_call s).toolsBound = true) :
    (s.flight_searched && s.hotel_searched && s.activities_searched &&
      (!s.needs_directions ||
        (s.needs_directions && s.directions_searched))) = false := by
  rcases Bool.eq_false_or_eq_true
      (s.flight_searched && s.hotel_searched && s.activities_searched &&
        (!s.needs_directions || (s.needs_directions && s.directions_searched)))
    with hall | hfls
  case inr => exact hfls
  exfalso
  simp only [Bool.and_eq_true, Bool.or_eq_true, Bool.not_eq_true'] at hall
  obtain ⟨⟨⟨hf, hh⟩, ha⟩, hd⟩ := hall
  have h1 : flightDone s = true := by simp [flightDone, hf]
  have h2 : hotelDone s = true := by simp [hotelDone, hh]
  have h3 : activitiesDone s = true := by simp [activitiesDone, ha]
  have h4 : s.needs_directions = false ∨ directionsDone s = true := by
    rcases hd with h | ⟨_, hds⟩
    · exact Or.inl h
    · exact Or.inr (by simp [directionsDone, hds])
  rw [chatbot_final_of_done s h1 h2 h3 h4] at h
  simp at h

/-! ## C3 : priority of the Travel extraction tool -/

/-- The state of claim C3's counterexample: no destination, yet all three
standard search flags set. -/
def c3_state : ChatState :=
  { destination := none, flight_searched := true, hotel_searched := true,
    activities_searched := true }

/-- Claim C3, counterexample: with the destination unset but the
flight/hotel/activities flags all true, `chatbot` takes the final-summary
branch — it binds no tools and instructs no tool at all — so an empty
destination does not force a `Travel` call regardless of the flags. -/
theorem C3_counterexample :
    destinationEmpty c3_state = true ∧
    chatbot_call c3_state = { toolsBound := false, instructedTool := none } ∧
    (chatbot_call c3_state).instructedTool ≠ some "Travel" := by
  decide

/-- Claim C3 (amended): whenever the three standard searches are not all
recorded as done (by flag or by message) and the destination is empty or
unset, the decision function instructs the LLM to call the `Travel` tool
and only that tool, regardless of which individual flags are set. -/
theorem C3_travel_first (s : ChatState)
    (hn : (flightDone s && hotelDone s && activitiesDone s) = false)
    (hd : destinationEmpty s = true) :
    chatbot_call s = { toolsBound := true, instructedTool := some "Travel" } := by
  simp [chatbot_call, hn, hd]

/-- The state of claim C3's witness: empty destination, hotel already
searched, flight and activities not. -/
def c3w_state : ChatState :=
  { destination := some "", hotel_searched := true }

/-- Claim C3, witness: at a concrete state with an empty destination
string and only the hotel flag set, the decision function instructs the
`Travel` tool. -/
theorem C3_witness :
    chatbot_call c3w_state =
      { toolsBound := true, instructedTool := some "Travel" } :=
  C3_travel_first c3w_state (by decide) (by decide)

/-! ## C4 : termination detection -/

/-- The flag-only readiness test of `tools_condition` (lines 365-366):
all three standard flags, and the directions flag when directions are
required. -/
def allRequiredFlags (s : ChatState) : Bool :=
  s.flight_searched && s.hotel_searched && s.activities_searched &&
    (!s.needs_directions || (s.needs_directions && s.directions_searched))

/-- Claim C4: the router ends the turn exactly when all required flags
are true and the latest message carries non-empty content and no pending
tool call; when the flags are all true but the message lacks content or
still requests a tool, the tool-call list is cleared (when the attribute
exists) and the router returns to the decision function — never to the
tool node and never ending the turn. -/
theorem C4_termination (s : ChatState) (last : Msg) :
    ((tools_condition s last).1 = Route.terminal ↔
      (allRequiredFlags s = true ∧ last.content ≠ "" ∧
        hasToolCalls last = false)) ∧
    (allRequiredFlags s = true →
      (last.content = "" ∨ hasToolCalls last = true) →
      (tools_condition s last).1 = Route.chatbot ∧
      (tools_condition s last).2 = clearToolCalls last ∧
      hasToolCalls (tools_condition s last).2 = false) := by
  have hclear : hasToolCalls (clearToolCalls last) = false := by
    cases h : last.tool_calls <;> simp [clearToolCalls, hasToolCalls, h]
  by_cases hall : allRequiredFlags s = true
  · have hx : (s.flight_searched && s.hotel_searched && s.activities_searched &&
        (!s.needs_directions || (s.needs_directions && s.directions_searched))) =
        true := hall
    by_cases hcnt : last.content = ""
    · constructor
      · simp [tools_condition, hx, hcnt, hall]
      · intro _ _
        simp [tools_condition, hx, hcnt, hclear]
    · by_cases htc : hasToolCalls last = true
      · constructor
        · simp [tools_condition, hx, htc, hall, hcnt]
        · intro _ _
          simp [tools_condition, hx, htc, hclear]
      · have htc2 : hasToolCalls last = false := by simpa using htc
        constructor
        · simp [tools_condition, hx, htc2, hcnt, hall]
        · intro _ hor
          rcases hor with h | h
          · exact absurd h hcnt
          · rw [htc2] at h
            cases h
  · have hx : (s.flight_searched && s.hotel_searched && s.activities_searched &&
        (!s.needs_directions || (s.needs_directions && s.directions_searched))) =
        false := by
      have := hall
      simpa [allRequiredFlags] using this
    have hroute : (tools_condition s last).1 ≠ Route.terminal := by
      by_cases htc : hasToolCalls last = true
      · by_cases hlen : 1 < (last.tool_calls.getD []).length
        · simp [tools_condition, hx, htc, hlen]
        · simp [tools_condition, hx, htc, hlen]
      · simp [tools_condition, hx, htc]
    constructor
    · constructor
      · intro h
        exact absurd h hroute
      · rintro ⟨ha, _, _⟩
        exact absurd ha hall
    · intro ha
      exact absurd ha hall

/-- The last message of claim C4's witness: all flags satisfied but the
assistant message still requests a tool. -/
def c4_last : Msg :=
  { content := "planning", tool_calls := some [{ name := "amadeus_flight_search" }] }

/-- The state of claim C4's witness: every search flag set, directions
not required. -/
def c4_state : ChatState :=
  { flight_searched := true, hotel_searched := true,
    activities_searched := true }

/-- Claim C4, witness: at a concrete ready state whose last message still
requests a tool, the router clears the tool-call list and loops back to
the decision function, and the cleared message requests no tool. -/
theorem C4_witness :
    (tools_condition c4_state c4_last).1 = Route.chatbot ∧
    (tools_condition c4_state c4_last).2 = clearToolCalls c4_last ∧
    hasToolCalls (tools_condition c4_state c4_last).2 = false :=
  (C4_termination c4_state c4_last).2 (by decide) (Or.inr (by decide))

/-! ## C6 : at most one tool call survives a round -/

/-- Claim C6: a multi-tool-call assistant response is always truncated to
its first call.  An assistant message can carry tool calls only when the
LLM was invoked with tools bound; for every such round whose response
carries two or more tool calls, `tools_condition` routes to the tool node
with exactly the first call retained, and `debug_tool_node` hands the
tool node exactly that one call — so at most one tool executes per LLM
round and the remaining calls are dropped without error. -/
theorem C6_first_call_only :
    (∀ (s : ChatState) (last : Msg) (c₁ c₂ : ToolCall) (rest : List ToolCall),
      (chatbot_call s).toolsBound = true →
      last.tool_calls = some (c₁ :: c₂ :: rest) →
      tools_condition s last =
        (Route.tools, { last with tool_calls := some [c₁] }) ∧
      debug_tool_calls { last with tool_calls := some [c₁] } = [c₁]) ∧
    (∀ (m : Msg) (c₁ c₂ : ToolCall) (rest : List ToolCall),
      m.tool_calls = some (c₁ :: c₂ :: rest) →
      debug_tool_calls m = [c₁]) := by
  constructor
  · intro s last c₁ c₂ rest hbound htc
    have hx := toolsBound_not_ready s hbound
    have hcalls : hasToolCalls last = true := by
      simp [hasToolCalls, htc]
    have hlen : 1 < (last.tool_calls.getD []).length := by
      simp [htc]
    constructor
    · simp [tools_condition, hx, hcalls, hlen, truncToolCalls, htc]
    · simp [debug_tool_calls]
  · intro m c₁ c₂ rest htc
    simp [debug_tool_calls, htc]

/-- The last message of claim C6's witness: two tool calls in one
response. -/
def c6_last : Msg :=
  { content := "",
    tool_calls := some [{ name := "amadeus_flight_search" },
                        { name := "quick_hotel_search" }] }

/-- The state of claim C6's witness: nothing searched yet, so the
decision function binds tools. -/
def c6_state : ChatState := { destination := some "Tokyo" }

/-- Claim C6, witness: at a concrete tools-bound round answering with two
tool calls, the router keeps only the first call and routes to the tool
node, which executes exactly that call. -/
theorem C6_witness :
    tools_condition c6_state c6_last =
      (Route.tools,
        { c6_last with tool_calls := some [{ name := "amadeus_flight_search" }] }) ∧
    debug_tool_calls
        { c6_last with tool_calls := some [{ name := "amadeus_flight_search" }] } =
      [{ name := "amadeus_flight_search" }] :=
  C6_first_call_only.1 c6_state c6_last
    { name := "amadeus_flight_search" } { name := "quick_hotel_search" } []
    (by decide) (by decide)

/-! ## C7 : the final invocation binds no tools -/

/-- Claim C7: whenever the flight, hotel and activities searches are all
recorded as done — by flag or by a matching tool-result message in the
log — and directions are not required or already done, the decision
function takes the final-summary branch and invokes the LLM with no tools
bound and no tool instruction, so that invocation cannot produce a tool
call. -/
theorem C7_no_tools_bound (s : ChatState)
    (h1 : flightDone s = true) (h2 : hotelDone s = true)
    (h3 : activitiesDone s = true)
    (h4 : s.needs_directions = false ∨ directionsDone s = true) :
    (chatbot_call s).toolsBound = false ∧
    (chatbot_call s).instructedTool = none := by
  rw [chatbot_final_of_done s h1 h2 h3 h4]
  exact ⟨rfl, rfl⟩

/-- The state of claim C7's witness: the three searches done by
tool-result messages only (no flags), directions required and already
done by flag. -/
def c7_state : ChatState :=
  { needs_directions := true, directions_searched := true,
    messages := [{ name := some "amadeus_flight_search" },
                 { name := some "quick_hotel_search" },
                 { name := some "google_search_activities" }] }

/-- Claim C7, witness: at a concrete state where the searches are done
only via the message log and directions are done by flag, the next
invocation binds no tools. -/
theorem C7_witness :
    (chatbot_call c7_state).toolsBound = false ∧
    (chatbot_call c7_state).instructedTool = none :=
  C7_no_tools_bound c7_state (by decide) (by decide) (by decide)
    (Or.inr (by decide))

/-! ## C9 : the flight flag after the budget stage -/

/-- Claim C9: every return path of `calculate_budget_status` — the
missing-message path, the sentinel path and the parse path — sets
`flight_searched` to true, and once that flag is true the decision
function never instructs another flight search: its instructed tool is
never `amadeus_flight_search` in any state whose flight flag is set. -/
theorem C9_flight_flag_set :
    (∀ (msgs : List Msg) (budget : Option String),
      (calculate_budget_status msgs budget).flight_searched = true) ∧
    (∀ s : ChatState, s.flight_searched = true →
      (chatbot_call s).instructedTool ≠ some "amadeus_flight_search") := by
  constructor
  · intro msgs budget
    cases hlast : (flightMsgs msgs).getLast? with
    | none => simp [calculate_budget_status, hlast, errorResult]
    | some m =>
      by_cases hsent : hasErrorSentinel m.content = true <;>
        simp [calculate_budget_status, hlast, hsent, errorResult,
          parseFlightStage]
  · intro s hf
    have hfd : flightDone s = true := by simp [flightDone, hf]
    rcases Bool.eq_false_or_eq_true (hotelDone s) with hh | hh <;>
      rcases Bool.eq_false_or_eq_true (activitiesDone s) with ha | ha <;>
      rcases Bool.eq_false_or_eq_true (destinationEmpty s) with hd | hd <;>
      rcases Bool.eq_false_or_eq_true s.needs_directions with hn | hn <;>
      rcases Bool.eq_false_or_eq_true (directionsDone s) with hdd | hdd <;>
      simp [chatbot_call, hfd, hh, ha, hd, hn, hdd]

/-- The state of claim C9's witness: flight flag set, nothing else. -/
def c9_state : ChatState := { flight_searched := true, destination := some "Oslo" }

/-- Claim C9, witness: the budget stage applied to an empty log reports
`flight_searched = true`, and at a concrete state with the flight flag
set the decision function does not instruct the flight tool. -/
theorem C9_witness :
    (calculate_budget_status [] none).flight_searched = true ∧
    (chatbot_call c9_state).instructedTool ≠ some "amadeus_flight_search" :=
  ⟨C9_flight_flag_set.1 [] none, C9_flight_flag_set.2 c9_state rfl⟩

end TravelPlanner
